import Mathlib

/-!
Verification of the java-type-checker expression checker
(java_type_checker/expressions.py) against its specification.

The expression AST, the static_type computation and the check_types
validation are translated directly from expressions.py.  The type
hierarchy itself (types.py) is an external collaborator of that file and
is not part of the checked sources; its interface (type name, direct
supertype set, method lookup by name, constructor signature) is modelled
from the specification, section 3 and section 4.1.
-/

namespace JavaTypeChecker

/-- Nominal type identifiers: the three primitive types and the null type
are distinguished singletons (Type.int, Type.boolean, Type.double,
Type.null in the source); every other type is a named class type. -/
inductive JType where
  | int
  | boolean
  | double
  | null
  | cls (n : String)
deriving DecidableEq

/-- Modelled from the spec: every type has a name, unique per type.  The
distinguished singletons carry their evident names. -/
def JType.name : JType → String
  | .int => "int"
  | .boolean => "boolean"
  | .double => "double"
  | .null => "null"
  | .cls n => n

/-- Modelled from the spec: a method signature has a name, a return type
and an ordered sequence of parameter types (types.py is not among the
checked sources). -/
structure MethodSig where
  name : String
  return_type : JType
  argument_types : List JType
deriving DecidableEq

/-- Modelled from the spec: a constructor signature is an ordered
sequence of parameter types. -/
structure ConstructorSig where
  argument_types : List JType
deriving DecidableEq

/-- Modelled from the spec: the per-type data of the type hierarchy — a
set of direct supertypes, the directly declared methods, and a
constructor signature (assumed present for non-primitive, non-null
types; never consulted for the others). -/
structure TypeInfo where
  direct_supertypes : List JType
  methods : List MethodSig
  constructor : ConstructorSig
deriving DecidableEq

/-- The type hierarchy: built once by an external collaborator and
immutable during checking; it assigns each type identifier its data. -/
structure TypeEnv where
  info : JType → TypeInfo

/-- Modelled from the spec: lookup of a method by name on a type returns
the signature if the type directly declares a method of that name, and
an absence indicator otherwise.  No inherited lookup: only the methods
declared on the exact type are consulted. -/
def method_named (env : TypeEnv) (t : JType) (mname : String) : Option MethodSig :=
  (env.info t).methods.find? (fun m => m.name == mname)

/-- The primitives list of expressions.py, lines 79 and 133:
[Type.int, Type.boolean, Type.double]. -/
def primitives : List JType := [JType.int, JType.boolean, JType.double]

/-- The expression AST of expressions.py: Variable, Literal, NullLiteral
(a Literal fixed to the null type), MethodCall and ConstructorCall. -/
inductive Expression where
  | var (name : String) (declared_type : JType)
  | literal (value : String) (type : JType)
  | nullLiteral
  | methodCall (receiver : Expression) (method_name : String) (args : List Expression)
  | constructorCall (instantiated_type : JType) (args : List Expression)

/-- static_type of expressions.py: the declared type of a variable, the
type of a literal, Type.null for the null literal, the return type of
the resolved method for a call, and the instantiated type for a
constructor call.  In the source, resolving a method that does not exist
makes static_type raise a non-JavaTypeError exception; that outcome is
modelled as none. -/
def static_type (env : TypeEnv) : Expression → Option JType
  | .var _ declared_type => some declared_type
  | .literal _ type => some type
  | .nullLiteral => some JType.null
  | .methodCall receiver method_name _ =>
    match static_type env receiver with
    | none => none
    | some objType =>
      match method_named env objType method_name with
      | none => none
      | some m => some m.return_type
  | .constructorCall instantiated_type _ => some instantiated_type

/-- The passedArgTypes computation of expressions.py lines 105-106 and
153-154: the static types of the arguments in order; none when some
argument has no static type (a raised non-JavaTypeError in the source). -/
def static_types_of (env : TypeEnv) : List Expression → Option (List JType)
  | [] => some []
  | e :: es =>
    match static_type env e with
    | none => none
    | some t =>
      match static_types_of env es with
      | none => none
      | some ts => some (t :: ts)

/-- The names helper of expressions.py lines 176-179: formats a tuple of
type names for error messages. -/
def names (ts : List JType) : String :=
  "(" ++ String.intercalate ", " (ts.map (fun t => t.name)) ++ ")"

/-- The outcome of check_types in expressions.py: success, a raised
JavaTypeError carrying only its message string, or a raised
non-JavaTypeError exception (modelled as crash). -/
inductive Outcome where
  | ok
  | typeError (message : String)
  | crash
deriving DecidableEq

/-- Message of expressions.py line 84: method call on a primitive
receiver. -/
def no_methods_msg (t : JType) : String :=
  "Type " ++ t.name ++ " does not have methods"

/-- Message of expressions.py line 92: unknown method on the receiver
type. -/
def unknown_method_msg (t : JType) (mname : String) : String :=
  t.name ++ " has no method named " ++ mname

/-- Message of expressions.py line 100: wrong argument count for a
method call. -/
def method_arity_msg (t : JType) (m : MethodSig) (got : Nat) : String :=
  "Wrong number of arguments for " ++ t.name ++ "." ++ m.name ++ "(): expected "
    ++ toString m.argument_types.length ++ ", got " ++ toString got

/-- Message of expressions.py line 114: argument type mismatch for a
method call, naming the expected and actual type tuples. -/
def method_mismatch_msg (t : JType) (m : MethodSig) (passed : List JType) : String :=
  t.name ++ "." ++ m.name ++ "() expects arguments of type "
    ++ names m.argument_types ++ ", but got " ++ names passed

/-- Message of expressions.py line 135: instantiating a primitive
type. -/
def not_instantiable_msg (t : JType) : String :=
  "Type " ++ t.name ++ " is not instantiable"

/-- Message of expressions.py line 147: wrong argument count for a
constructor call. -/
def ctor_arity_msg (t : JType) (expected got : Nat) : String :=
  "Wrong number of arguments for " ++ t.name ++ " constructor: expected "
    ++ toString expected ++ ", got " ++ toString got

/-- Message of expressions.py line 164: argument type mismatch for a
constructor call, naming the expected and actual type tuples. -/
def ctor_mismatch_msg (t : JType) (expected passed : List JType) : String :=
  t.name ++ " constructor expects arguments of type "
    ++ names expected ++ ", but got " ++ names passed

mutual

/-- check_types of expressions.py.  Variable and Literal always pass
(lines 38-39, 52-53).  MethodCall (lines 78-117): compute the receiver
type; reject primitive receivers; resolve the method or reject; check
the arity or reject; compute all argument static types; then, left to
right, recursively validate each argument and compare its static type
with the declared parameter type.  ConstructorCall (lines 131-167):
reject primitives and null; fetch the constructor signature; check the
arity or reject; compute all argument static types; then, left to
right, recursively validate each argument and compare types. -/
def check_types (env : TypeEnv) : Expression → Outcome
  | .var _ _ => .ok
  | .literal _ _ => .ok
  | .nullLiteral => .ok
  | .methodCall receiver method_name args =>
    match static_type env receiver with
    | none => .crash
    | some objType =>
      if objType ∈ primitives then
        .typeError (no_methods_msg objType)
      else
        match method_named env objType method_name with
        | none => .typeError (unknown_method_msg objType method_name)
        | some method =>
          if args.length = method.argument_types.length then
            match static_types_of env args with
            | none => .crash
            | some passedArgTypes =>
              check_args_method env args passedArgTypes method.argument_types
                (method_mismatch_msg objType method passedArgTypes)
          else
            .typeError (method_arity_msg objType method args.length)
  | .constructorCall instantiated_type args =>
    if instantiated_type ∈ primitives then
      .typeError (not_instantiable_msg instantiated_type)
    else if instantiated_type = JType.null then
      .typeError "Type null is not instantiable"
    else
      let expectedArgTypes := (env.info instantiated_type).constructor.argument_types
      if args.length = expectedArgTypes.length then
        match static_types_of env args with
        | none => .crash
        | some passedArgTypes =>
          check_args_ctor env args passedArgTypes expectedArgTypes
            (ctor_mismatch_msg instantiated_type expectedArgTypes passedArgTypes)
      else
        .typeError (ctor_arity_msg instantiated_type expectedArgTypes.length args.length)

/-- The argument loop of MethodCall.check_types, expressions.py lines
107-117: for each position, first recursively validate the argument
(propagating its outcome if it is not success), then accept the position
when the passed type equals the expected type, or the expected type is a
direct supertype of the passed type, or the passed type is null;
otherwise raise the mismatch message (which names the full tuples and so
does not depend on the position). -/
def check_args_method (env : TypeEnv) :
    List Expression → List JType → List JType → String → Outcome
  | [], _, _, _ => .ok
  | _ :: _, [], _, _ => .ok
  | _ :: _, _ :: _, [], _ => .ok
  | e :: es, aT :: aTs, pT :: pTs, msg =>
    match check_types env e with
    | .ok =>
      if aT = pT then
        check_args_method env es aTs pTs msg
      else if pT ∈ (env.info aT).direct_supertypes ∨ aT = JType.null then
        check_args_method env es aTs pTs msg
      else
        .typeError msg
    | r => r

/-- The argument loop of ConstructorCall.check_types, expressions.py
lines 155-167: as for method calls, except that a null argument is
accepted only when the expected parameter type is not a primitive. -/
def check_args_ctor (env : TypeEnv) :
    List Expression → List JType → List JType → String → Outcome
  | [], _, _, _ => .ok
  | _ :: _, [], _, _ => .ok
  | _ :: _, _ :: _, [], _ => .ok
  | e :: es, aT :: aTs, pT :: pTs, msg =>
    match check_types env e with
    | .ok =>
      if aT = pT then
        check_args_ctor env es aTs pTs msg
      else if pT ∈ (env.info aT).direct_supertypes then
        check_args_ctor env es aTs pTs msg
      else if aT = JType.null ∧ pT ∉ primitives then
        check_args_ctor env es aTs pTs msg
      else
        .typeError msg
    | r => r

end

/-- The acceptance condition for one method-call argument position,
expressions.py lines 109-111: the passed type equals the expected type,
or the expected type is a direct supertype of the passed type, or the
passed type is null (with no restriction on the expected type). -/
def accept_m (env : TypeEnv) (a p : JType) : Prop :=
  a = p ∨ p ∈ (env.info a).direct_supertypes ∨ a = JType.null

instance (env : TypeEnv) (a p : JType) : Decidable (accept_m env a p) := by
  unfold accept_m; infer_instance

/-- The acceptance condition for one constructor-call argument position,
expressions.py lines 157-162: as for method calls, except that null is
accepted only when the expected type is not a primitive. -/
def accept_c (env : TypeEnv) (a p : JType) : Prop :=
  a = p ∨ p ∈ (env.info a).direct_supertypes ∨ (a = JType.null ∧ p ∉ primitives)

instance (env : TypeEnv) (a p : JType) : Decidable (accept_c env a p) := by
  unfold accept_c; infer_instance

/-- The hierarchy invariant of the spec, section 3: the supertype
relation never contains a primitive as a supertype of another type, so
primitive assignability is decided only by the special cases of the
checker. -/
def WellFormedEnv (env : TypeEnv) : Prop :=
  ∀ t p, p ∈ primitives → p ∉ (env.info t).direct_supertypes

/-- The five causes distinguished by the spec, section 7. -/
inductive TypeErrorKind where
  | NotInstantiableReceiver
  | UnknownMethod
  | NotInstantiableType
  | ArityMismatch
  | ArgumentTypeMismatch
deriving DecidableEq

/-- Outcome of the spec-side kinded checker: as Outcome, but a raised
error carries an inspectable kind besides its message. -/
inductive OutcomeK where
  | ok
  | typeError (kind : TypeErrorKind) (message : String)
  | crash
deriving DecidableEq

mutual

/-- Modelled from the spec: check_types as the spec, sections 4.2 and 7,
asks implementers to realise it — identical to check_types of
expressions.py in every branch and message, except that each raise site
carries its cause from the five-kind taxonomy as an inspectable kind.
The source itself raises one exception class, JavaTypeError, at all five
sites, so this definition exists to compare the code against the
spec-required kinds. -/
def check_types_k (env : TypeEnv) : Expression → OutcomeK
  | .var _ _ => .ok
  | .literal _ _ => .ok
  | .nullLiteral => .ok
  | .methodCall receiver method_name args =>
    match static_type env receiver with
    | none => .crash
    | some objType =>
      if objType ∈ primitives then
        .typeError .NotInstantiableReceiver (no_methods_msg objType)
      else
        match method_named env objType method_name with
        | none => .typeError .UnknownMethod (unknown_method_msg objType method_name)
        | some method =>
          if args.length = method.argument_types.length then
            match static_types_of env args with
            | none => .crash
            | some passedArgTypes =>
              check_args_method_k env args passedArgTypes method.argument_types
                (method_mismatch_msg objType method passedArgTypes)
          else
            .typeError .ArityMismatch (method_arity_msg objType method args.length)
  | .constructorCall instantiated_type args =>
    if instantiated_type ∈ primitives then
      .typeError .NotInstantiableType (not_instantiable_msg instantiated_type)
    else if instantiated_type = JType.null then
      .typeError .NotInstantiableType "Type null is not instantiable"
    else
      let expectedArgTypes := (env.info instantiated_type).constructor.argument_types
      if args.length = expectedArgTypes.length then
        match static_types_of env args with
        | none => .crash
        | some passedArgTypes =>
          check_args_ctor_k env args passedArgTypes expectedArgTypes
            (ctor_mismatch_msg instantiated_type expectedArgTypes passedArgTypes)
      else
        .typeError .ArityMismatch
          (ctor_arity_msg instantiated_type expectedArgTypes.length args.length)

/-- Modelled from the spec: the method-call argument loop with the
mismatch raise carrying the ArgumentTypeMismatch kind. -/
def check_args_method_k (env : TypeEnv) :
    List Expression → List JType → List JType → String → OutcomeK
  | [], _, _, _ => .ok
  | _ :: _, [], _, _ => .ok
  | _ :: _, _ :: _, [], _ => .ok
  | e :: es, aT :: aTs, pT :: pTs, msg =>
    match check_types_k env e with
    | .ok =>
      if aT = pT then
        check_args_method_k env es aTs pTs msg
      else if pT ∈ (env.info aT).direct_supertypes ∨ aT = JType.null then
        check_args_method_k env es aTs pTs msg
      else
        .typeError .ArgumentTypeMismatch msg
    | r => r

/-- Modelled from the spec: the constructor-call argument loop with the
mismatch raise carrying the ArgumentTypeMismatch kind. -/
def check_args_ctor_k (env : TypeEnv) :
    List Expression → List JType → List JType → String → OutcomeK
  | [], _, _, _ => .ok
  | _ :: _, [], _, _ => .ok
  | _ :: _, _ :: _, [], _ => .ok
  | e :: es, aT :: aTs, pT :: pTs, msg =>
    match check_types_k env e with
    | .ok =>
      if aT = pT then
        check_args_ctor_k env es aTs pTs msg
      else if pT ∈ (env.info aT).direct_supertypes then
        check_args_ctor_k env es aTs pTs msg
      else if aT = JType.null ∧ pT ∉ primitives then
        check_args_ctor_k env es aTs pTs msg
      else
        .typeError .ArgumentTypeMismatch msg
    | r => r

end

/-- The TypeInfo of a type the hierarchy knows nothing about: no
supertypes, no methods, an empty constructor signature. -/
def infoEmpty : TypeInfo := ⟨[], [], ⟨[]⟩⟩

/-- A concrete type hierarchy used for the concrete scenarios: the
Object and String types of the spec, section 8 (String has a
zero-argument method length returning int and a constructor expecting
one int); a Sub type whose direct supertype Sup declares a method foo
that Sub does not; a three-level chain A3 with direct supertype B3 with
direct supertype C3, with a type W declaring methods expecting a B3, a
C3 and an int, and types CtorB and CtorC whose constructors expect a B3
and a C3; a type Obj with a method m expecting an int and a type C with
a method g expecting an int and returning boolean; a factory type Mk
whose method mk expects an int and returns String; and a type Q whose
single method has an adversarially chosen name; a type absent from the
table has the empty TypeInfo. -/
def envTable : List (JType × TypeInfo) :=
  [(.cls "Object", ⟨[], [], ⟨[]⟩⟩),
   (.cls "String", ⟨[.cls "Object"], [⟨"length", JType.int, []⟩], ⟨[JType.int]⟩⟩),
   (.cls "Sub", ⟨[.cls "Sup"], [], ⟨[]⟩⟩),
   (.cls "Sup", ⟨[.cls "Top"], [⟨"foo", JType.int, []⟩], ⟨[]⟩⟩),
   (.cls "Top", ⟨[], [], ⟨[]⟩⟩),
   (.cls "A3", ⟨[.cls "B3"], [], ⟨[]⟩⟩),
   (.cls "B3", ⟨[.cls "C3"], [], ⟨[]⟩⟩),
   (.cls "C3", ⟨[], [], ⟨[]⟩⟩),
   (.cls "W",
    ⟨[], [⟨"takeB", JType.int, [.cls "B3"]⟩, ⟨"takeC", JType.int, [.cls "C3"]⟩,
          ⟨"takeInt", JType.int, [JType.int]⟩], ⟨[]⟩⟩),
   (.cls "CtorB", ⟨[], [], ⟨[.cls "B3"]⟩⟩),
   (.cls "CtorC", ⟨[], [], ⟨[.cls "C3"]⟩⟩),
   (.cls "Obj", ⟨[], [⟨"m", JType.int, [JType.int]⟩], ⟨[]⟩⟩),
   (.cls "C", ⟨[], [⟨"g", JType.boolean, [JType.int]⟩], ⟨[]⟩⟩),
   (.cls "Mk", ⟨[], [⟨"mk", .cls "String", [JType.int]⟩], ⟨[]⟩⟩),
   (.cls "Q", ⟨[], [⟨"c has no method named d", JType.int, [JType.int]⟩], ⟨[]⟩⟩)]

def envA : TypeEnv :=
  ⟨fun t => ((envTable.find? (fun q => q.1 == t)).map Prod.snd).getD infoEmpty⟩

/-- An argument expression that is itself ill typed: the call g() on a
receiver of type C, whose method g expects one argument.  Its static
type is boolean (the return type of g), but its own validation fails
with an arity error. -/
def argBadArity : Expression := .methodCall (.var "x" (.cls "C")) "g" []

/-- The method call m(g()) on a receiver of type Obj: every hypothesis
of the C1 claim holds (Obj is not primitive, declares m, one argument
for one parameter) and the argument type boolean fails every acceptance
condition against the parameter type int, yet the argument subtree
fails its own validation first. -/
def exprC1 : Expression := .methodCall (.var "r" (.cls "Obj")) "m" [argBadArity]

/-- A method call that fails by unknown-method lookup with an error
message equal, character for character, to the arity failure message of
exprArity: the receiver type name and the method name are chosen
adversarially. -/
def exprUnknown : Expression :=
  .methodCall (.var "x" (.cls "Wrong number of arguments for Q.c")) "d(): expected 1, got 2" []

/-- A method call that fails the arity check: the method of Q expects
one argument and receives two. -/
def exprArity : Expression :=
  .methodCall (.var "y" (.cls "Q")) "c has no method named d"
    [.literal "1" JType.int, .literal "2" JType.int]

/-- An ill-typed receiver whose static type is String: the factory
method mk of Mk expects one argument and receives none, so validation
of this expression fails, while its static type is the return type
String of mk. -/
def recvBad : Expression := .methodCall (.var "k" (.cls "Mk")) "mk" []

lemma static_types_of_length (env : TypeEnv) :
    ∀ (es : List Expression) (ts : List JType),
    static_types_of env es = some ts → es.length = ts.length := by
  intro es
  induction es with
  | nil => intro ts h; simp [static_types_of] at h; subst h; rfl
  | cons e es ih =>
    intro ts h
    simp only [static_types_of] at h
    cases h1 : static_type env e with
    | none => rw [h1] at h; simp at h
    | some t =>
      rw [h1] at h
      cases h2 : static_types_of env es with
      | none => rw [h2] at h; simp at h
      | some ts2 =>
        rw [h2] at h
        simp at h
        rw [h.symm]
        simp [ih ts2 h2]

lemma check_args_method_all_ok (env : TypeEnv) (es : List Expression) :
    ∀ (aTs pTs : List JType) (msg : String),
    (∀ e ∈ es, check_types env e = Outcome.ok) →
    (∀ q ∈ aTs.zip pTs, accept_m env q.1 q.2) →
    check_args_method env es aTs pTs msg = Outcome.ok := by
  induction es with
  | nil => intro aTs pTs msg _ _; simp [check_args_method]
  | cons e es ih =>
    intro aTs pTs msg hok hacc
    match aTs, pTs with
    | [], _ => simp [check_args_method]
    | _ :: _, [] => simp [check_args_method]
    | aT :: aTs, pT :: pTs =>
      have he : check_types env e = Outcome.ok := hok e (by simp)
      have hq : accept_m env aT pT := hacc (aT, pT) (by simp)
      have htail : check_args_method env es aTs pTs msg = Outcome.ok :=
        ih aTs pTs msg (fun x hx => hok x (by simp [hx]))
          (fun q hqm => hacc q (by simp [hqm]))
      simp only [check_args_method, he]
      by_cases hep : aT = pT
      · rw [if_pos hep]; exact htail
      · rw [if_neg hep, if_pos ?side]
        case side =>
          rcases hq with h | h | h
          · exact absurd h hep
          · exact Or.inl h
          · exact Or.inr h
        exact htail

lemma check_args_method_mismatch (env : TypeEnv) (es : List Expression) :
    ∀ (aTs pTs : List JType) (msg : String),
    es.length = aTs.length → es.length = pTs.length →
    (∀ e ∈ es, check_types env e = Outcome.ok) →
    (∃ q ∈ aTs.zip pTs, ¬ accept_m env q.1 q.2) →
    check_args_method env es aTs pTs msg = Outcome.typeError msg := by
  induction es with
  | nil =>
    intro aTs pTs msg hla _ _ hex
    match aTs with
    | [] => simp at hex
    | _ :: _ => simp at hla
  | cons e es ih =>
    intro aTs pTs msg hla hlp hok hex
    match aTs, pTs with
    | [], _ => simp at hla
    | _ :: _, [] => simp at hlp
    | aT :: aTs, pT :: pTs =>
      have he : check_types env e = Outcome.ok := hok e (by simp)
      simp only [check_args_method, he]
      by_cases hacc : accept_m env aT pT
      · have hex2 : ∃ q ∈ aTs.zip pTs, ¬ accept_m env q.1 q.2 := by
          obtain ⟨q, hqm, hqn⟩ := hex
          simp only [List.zip_cons_cons, List.mem_cons] at hqm
          rcases hqm with rfl | hqm
          · exact absurd hacc hqn
          · exact ⟨q, hqm, hqn⟩
        have htail := ih aTs pTs msg (by simpa using hla) (by simpa using hlp)
          (fun x hx => hok x (by simp [hx])) hex2
        by_cases hep : aT = pT
        · rw [if_pos hep]; exact htail
        · rw [if_neg hep]
          by_cases hw : pT ∈ (env.info aT).direct_supertypes ∨ aT = JType.null
          · rw [if_pos hw]; exact htail
          · exfalso
            rcases hacc with h | h | h
            · exact hep h
            · exact hw (Or.inl h)
            · exact hw (Or.inr h)
      · have hep : ¬ aT = pT := fun h => hacc (Or.inl h)
        have hw : ¬ (pT ∈ (env.info aT).direct_supertypes ∨ aT = JType.null) := by
          intro h
          rcases h with h | h
          · exact hacc (Or.inr (Or.inl h))
          · exact hacc (Or.inr (Or.inr h))
        rw [if_neg hep, if_neg hw]

lemma check_args_ctor_all_ok (env : TypeEnv) (es : List Expression) :
    ∀ (aTs pTs : List JType) (msg : String),
    (∀ e ∈ es, check_types env e = Outcome.ok) →
    (∀ q ∈ aTs.zip pTs, accept_c env q.1 q.2) →
    check_args_ctor env es aTs pTs msg = Outcome.ok := by
  induction es with
  | nil => intro aTs pTs msg _ _; simp [check_args_ctor]
  | cons e es ih =>
    intro aTs pTs msg hok hacc
    match aTs, pTs with
    | [], _ => simp [check_args_ctor]
    | _ :: _, [] => simp [check_args_ctor]
    | aT :: aTs, pT :: pTs =>
      have he : check_types env e = Outcome.ok := hok e (by simp)
      have hq : accept_c env aT pT := hacc (aT, pT) (by simp)
      have htail : check_args_ctor env es aTs pTs msg = Outcome.ok :=
        ih aTs pTs msg (fun x hx => hok x (by simp [hx]))
          (fun q hqm => hacc q (by simp [hqm]))
      simp only [check_args_ctor, he]
      by_cases hep : aT = pT
      · rw [if_pos hep]; exact htail
      · rw [if_neg hep]
        by_cases hsup : pT ∈ (env.info aT).direct_supertypes
        · rw [if_pos hsup]; exact htail
        · rw [if_neg hsup, if_pos ?side]
          case side =>
            rcases hq with h | h | h
            · exact absurd h hep
            · exact absurd h hsup
            · exact h
          exact htail

lemma check_args_ctor_mismatch (env : TypeEnv) (es : List Expression) :
    ∀ (aTs pTs : List JType) (msg : String),
    es.length = aTs.length → es.length = pTs.length →
    (∀ e ∈ es, check_types env e = Outcome.ok) →
    (∃ q ∈ aTs.zip pTs, ¬ accept_c env q.1 q.2) →
    check_args_ctor env es aTs pTs msg = Outcome.typeError msg := by
  induction es with
  | nil =>
    intro aTs pTs msg hla _ _ hex
    match aTs with
    | [] => simp at hex
    | _ :: _ => simp at hla
  | cons e es ih =>
    intro aTs pTs msg hla hlp hok hex
    match aTs, pTs with
    | [], _ => simp at hla
    | _ :: _, [] => simp at hlp
    | aT :: aTs, pT :: pTs =>
      have he : check_types env e = Outcome.ok := hok e (by simp)
      simp only [check_args_ctor, he]
      by_cases hacc : accept_c env aT pT
      · have hex2 : ∃ q ∈ aTs.zip pTs, ¬ accept_c env q.1 q.2 := by
          obtain ⟨q, hqm, hqn⟩ := hex
          simp only [List.zip_cons_cons, List.mem_cons] at hqm
          rcases hqm with rfl | hqm
          · exact absurd hacc hqn
          · exact ⟨q, hqm, hqn⟩
        have htail := ih aTs pTs msg (by simpa using hla) (by simpa using hlp)
          (fun x hx => hok x (by simp [hx])) hex2
        rcases hacc with h | h | h
        · rw [if_pos h]; exact htail
        · by_cases hep : aT = pT
          · rw [if_pos hep]; exact htail
          · rw [if_neg hep, if_pos h]; exact htail
        · by_cases hep : aT = pT
          · rw [if_pos hep]; exact htail
          · rw [if_neg hep]
            by_cases hsup : pT ∈ (env.info aT).direct_supertypes
            · rw [if_pos hsup]; exact htail
            · rw [if_neg hsup, if_pos h]; exact htail
      · have hep : ¬ aT = pT := fun h => hacc (Or.inl h)
        have hsup : pT ∉ (env.info aT).direct_supertypes := fun h => hacc (Or.inr (Or.inl h))
        have hn : ¬ (aT = JType.null ∧ pT ∉ primitives) := fun h => hacc (Or.inr (Or.inr h))
        rw [if_neg hep, if_neg hsup, if_neg hn]

lemma methodCall_primitive_receiver (env : TypeEnv) (recv : Expression)
    (mname : String) (args : List Expression) (R : JType)
    (hR : static_type env recv = some R) (hp : R ∈ primitives) :
    check_types env (.methodCall recv mname args) =
      Outcome.typeError (no_methods_msg R) := by
  simp [check_types, hR, hp]

lemma methodCall_unknown_method (env : TypeEnv) (recv : Expression)
    (mname : String) (args : List Expression) (R : JType)
    (hR : static_type env recv = some R) (hp : R ∉ primitives)
    (hm : method_named env R mname = none) :
    check_types env (.methodCall recv mname args) =
      Outcome.typeError (unknown_method_msg R mname) := by
  simp [check_types, hR, hp, hm]

lemma methodCall_arity (env : TypeEnv) (recv : Expression)
    (mname : String) (args : List Expression) (R : JType) (method : MethodSig)
    (hR : static_type env recv = some R) (hp : R ∉ primitives)
    (hm : method_named env R mname = some method)
    (har : args.length ≠ method.argument_types.length) :
    check_types env (.methodCall recv mname args) =
      Outcome.typeError (method_arity_msg R method args.length) := by
  simp [check_types, hR, hp, hm, har]

lemma methodCall_loop (env : TypeEnv) (recv : Expression)
    (mname : String) (args : List Expression) (R : JType) (method : MethodSig)
    (aTs : List JType)
    (hR : static_type env recv = some R) (hp : R ∉ primitives)
    (hm : method_named env R mname = some method)
    (har : args.length = method.argument_types.length)
    (hst : static_types_of env args = some aTs) :
    check_types env (.methodCall recv mname args) =
      check_args_method env args aTs method.argument_types
        (method_mismatch_msg R method aTs) := by
  simp [check_types, hR, hp, hm, har, hst]

lemma ctorCall_not_instantiable (env : TypeEnv) (t : JType)
    (args : List Expression) (h : t ∈ primitives ∨ t = JType.null) :
    check_types env (.constructorCall t args) =
      Outcome.typeError (not_instantiable_msg t) := by
  rcases h with h | h
  · simp [check_types, h]
  · subst h
    simp only [check_types]
    rw [if_neg (by simp [primitives]), if_pos trivial]
    rfl

lemma ctorCall_arity (env : TypeEnv) (t : JType) (args : List Expression)
    (hp : t ∉ primitives) (hn : t ≠ JType.null)
    (har : args.length ≠ (env.info t).constructor.argument_types.length) :
    check_types env (.constructorCall t args) =
      Outcome.typeError
        (ctor_arity_msg t (env.info t).constructor.argument_types.length args.length) := by
  simp [check_types, hp, hn, har]

lemma ctorCall_loop (env : TypeEnv) (t : JType) (args : List Expression)
    (aTs : List JType)
    (hp : t ∉ primitives) (hn : t ≠ JType.null)
    (har : args.length = (env.info t).constructor.argument_types.length)
    (hst : static_types_of env args = some aTs) :
    check_types env (.constructorCall t args) =
      check_args_ctor env args aTs (env.info t).constructor.argument_types
        (ctor_mismatch_msg t (env.info t).constructor.argument_types aTs) := by
  simp [check_types, hp, hn, har, hst]

/-- C3: a method call whose receiver has a primitive static type R fails
with the NotInstantiableReceiver cause, raised as a JavaTypeError whose
message is Type R does not have methods, for every method name and every
argument list, independent of any method lookup, arity check or
argument validation. -/
theorem C3_primitive_receiver_rejected (env : TypeEnv) (recv : Expression)
    (mname : String) (args : List Expression) (R : JType)
    (hR : static_type env recv = some R) (hp : R ∈ primitives) :
    check_types env (.methodCall recv mname args) =
      Outcome.typeError (no_methods_msg R) :=
  methodCall_primitive_receiver env recv mname args R hR hp

/-- C3 witness: the spec scenario, the call 1.toString() on the int
literal 1, fails with the message Type int does not have methods even
though no toString method exists anywhere; a second instance passes
arguments, with the same outcome. -/
theorem C3_witness :
    check_types envA (.methodCall (.literal "1" JType.int) "toString" []) =
      Outcome.typeError "Type int does not have methods"
    ∧ check_types envA
        (.methodCall (.var "b" JType.boolean) "length" [.literal "1" JType.int]) =
      Outcome.typeError "Type boolean does not have methods" :=
  ⟨C3_primitive_receiver_rejected envA (.literal "1" JType.int) "toString" []
      JType.int rfl (by decide),
   C3_primitive_receiver_rejected envA (.var "b" JType.boolean) "length"
      [.literal "1" JType.int] JType.boolean rfl (by decide)⟩

/-- C4: a constructor call whose instantiated type is a primitive or the
null type fails with the NotInstantiableType cause, raised as a
JavaTypeError whose message is Type t is not instantiable, for every
argument list, independent of any arity check or argument validation. -/
theorem C4_not_instantiable_type (env : TypeEnv) (t : JType)
    (args : List Expression) (h : t ∈ primitives ∨ t = JType.null) :
    check_types env (.constructorCall t args) =
      Outcome.typeError (not_instantiable_msg t) :=
  ctorCall_not_instantiable env t args h

/-- C4 witness: new int() fails with Type int is not instantiable, and
new null(0) fails with Type null is not instantiable, whatever the
arguments. -/
theorem C4_witness :
    check_types envA (.constructorCall JType.int []) =
      Outcome.typeError "Type int is not instantiable"
    ∧ check_types envA (.constructorCall JType.null [.literal "0" JType.int]) =
      Outcome.typeError "Type null is not instantiable" :=
  ⟨C4_not_instantiable_type envA JType.int [] (Or.inl (by decide)),
   C4_not_instantiable_type envA JType.null [.literal "0" JType.int] (Or.inr rfl)⟩

/-- C7: in both call forms the arity check precedes all per-argument
work: whenever the argument count differs from the declared parameter
count, check_types fails with the ArityMismatch cause and its arity
message, whatever the argument expressions are — in particular the
outcome is the same for argument subtrees that would themselves fail
validation, and no argument subtree is recursively validated. -/
theorem C7_arity_precedes_argument_checks (env : TypeEnv) :
    (∀ (recv : Expression) (mname : String) (args : List Expression)
      (R : JType) (method : MethodSig),
      static_type env recv = some R → R ∉ primitives →
      method_named env R mname = some method →
      args.length ≠ method.argument_types.length →
      check_types env (.methodCall recv mname args) =
        Outcome.typeError (method_arity_msg R method args.length))
    ∧ (∀ (t : JType) (args : List Expression),
      t ∉ primitives → t ≠ JType.null →
      args.length ≠ (env.info t).constructor.argument_types.length →
      check_types env (.constructorCall t args) =
        Outcome.typeError
          (ctor_arity_msg t (env.info t).constructor.argument_types.length
            args.length)) :=
  ⟨fun recv mname args R method hR hp hm har =>
      methodCall_arity env recv mname args R method hR hp hm har,
   fun t args hp hn har => ctorCall_arity env t args hp hn har⟩

/-- C7 witness: the call s.length(b) where s has type String, length
expects no arguments, and the argument b is the ill-typed expression
1.toString(), reports the arity mismatch, not the failure of the
argument subtree; likewise new String(b, b) with two ill-typed
arguments where one is expected. -/
theorem C7_witness :
    check_types envA
        (.methodCall (.var "s" (.cls "String")) "length"
          [.methodCall (.literal "1" JType.int) "toString" []]) =
      Outcome.typeError "Wrong number of arguments for String.length(): expected 0, got 1"
    ∧ check_types envA (.constructorCall (.cls "String") [argBadArity, argBadArity]) =
      Outcome.typeError "Wrong number of arguments for String constructor: expected 1, got 2" :=
  ⟨(C7_arity_precedes_argument_checks envA).1 (.var "s" (.cls "String")) "length"
      [.methodCall (.literal "1" JType.int) "toString" []]
      (.cls "String") ⟨"length", JType.int, []⟩ rfl (by decide) rfl (by decide),
   (C7_arity_precedes_argument_checks envA).2 (.cls "String")
      [argBadArity, argBadArity] (by decide) (by decide) (by decide)⟩

/-- C8: a method call whose receiver has a non-primitive static type R
that does not itself declare a method of the given name fails with the
UnknownMethod cause and its message; lookup consults only R, so the
outcome is the same whatever any supertype declares. -/
theorem C8_unknown_method (env : TypeEnv) (recv : Expression)
    (mname : String) (args : List Expression) (R : JType)
    (hR : static_type env recv = some R) (hp : R ∉ primitives)
    (hm : method_named env R mname = none) :
    check_types env (.methodCall recv mname args) =
      Outcome.typeError (unknown_method_msg R mname) :=
  methodCall_unknown_method env recv mname args R hR hp hm

/-- C8 witness: the call x.foo() where x has type Sub fails with Sub has
no method named foo, although Sup is a direct supertype of Sub and
declares a method foo. -/
theorem C8_witness :
    check_types envA (.methodCall (.var "x" (.cls "Sub")) "foo" []) =
      Outcome.typeError "Sub has no method named foo"
    ∧ JType.cls "Sup" ∈ (envA.info (.cls "Sub")).direct_supertypes
    ∧ method_named envA (.cls "Sup") "foo" = some ⟨"foo", JType.int, []⟩ :=
  ⟨C8_unknown_method envA (.var "x" (.cls "Sub")) "foo" [] (.cls "Sub")
      rfl (by decide) (by decide),
   by decide, by decide⟩

/-- C10: check_types of a method call never validates the receiver
subtree, only its static type: when the receiver static type is a
non-primitive type declaring the named method with matching arity and
every argument type acceptable, and the argument subtrees validate,
check_types succeeds even though the receiver subtree itself fails
validation. -/
theorem C10_receiver_not_validated (env : TypeEnv) (recv : Expression)
    (mname : String) (args : List Expression) (R : JType) (method : MethodSig)
    (aTs : List JType)
    (_hbad : check_types env recv ≠ Outcome.ok)
    (hR : static_type env recv = some R) (hp : R ∉ primitives)
    (hm : method_named env R mname = some method)
    (har : args.length = method.argument_types.length)
    (hst : static_types_of env args = some aTs)
    (hok : ∀ e ∈ args, check_types env e = Outcome.ok)
    (hacc : ∀ q ∈ aTs.zip method.argument_types, accept_m env q.1 q.2) :
    check_types env (.methodCall recv mname args) = Outcome.ok := by
  rw [methodCall_loop env recv mname args R method aTs hR hp hm har hst]
  exact check_args_method_all_ok env args aTs method.argument_types _ hok hacc

/-- C10 witness: the receiver k.mk() is ill typed (mk expects one
argument) but has static type String, and the call k.mk().length()
succeeds while validating the receiver alone fails. -/
theorem C10_witness :
    check_types envA (.methodCall recvBad "length" []) = Outcome.ok
    ∧ check_types envA recvBad =
        Outcome.typeError "Wrong number of arguments for Mk.mk(): expected 1, got 0" :=
  ⟨C10_receiver_not_validated envA recvBad "length" [] (.cls "String")
      ⟨"length", JType.int, []⟩ [] (by decide) rfl (by decide) (by decide)
      (by decide) rfl (by decide) (by decide),
   by decide⟩

/-- C1 as amended: for a method call whose receiver static type R is
non-primitive and declares the named method, whose argument count
matches the parameter count, and whose argument subtrees each pass
their own validation, the call validates successfully exactly when
every argument position satisfies one of the three acceptance
conditions (equal types, declared parameter type a direct supertype of
the argument type, or a null-typed argument — even for a primitive
parameter), and if any position fails all three the call fails with the
ArgumentTypeMismatch cause, its message naming the expected and actual
type tuples. -/
theorem C1_method_argument_rule (env : TypeEnv) (recv : Expression)
    (mname : String) (args : List Expression) (R : JType) (method : MethodSig)
    (aTs : List JType)
    (hR : static_type env recv = some R) (hp : R ∉ primitives)
    (hm : method_named env R mname = some method)
    (har : args.length = method.argument_types.length)
    (hst : static_types_of env args = some aTs)
    (hok : ∀ e ∈ args, check_types env e = Outcome.ok) :
    (check_types env (.methodCall recv mname args) = Outcome.ok ↔
      ∀ q ∈ aTs.zip method.argument_types, accept_m env q.1 q.2)
    ∧ ((∃ q ∈ aTs.zip method.argument_types, ¬ accept_m env q.1 q.2) →
      check_types env (.methodCall recv mname args) =
        Outcome.typeError (method_mismatch_msg R method aTs)) := by
  have hloop := methodCall_loop env recv mname args R method aTs hR hp hm har hst
  have hlen1 : args.length = aTs.length := static_types_of_length env args aTs hst
  refine ⟨⟨?_, ?_⟩, ?_⟩
  · intro hokAll q hq
    by_contra hno
    have h2 := check_args_method_mismatch env args aTs method.argument_types
      (method_mismatch_msg R method aTs) hlen1 har hok ⟨q, hq, hno⟩
    rw [hloop, h2] at hokAll
    exact absurd hokAll (by simp)
  · intro hall
    rw [hloop]
    exact check_args_method_all_ok env args aTs method.argument_types _ hok hall
  · intro hex
    rw [hloop]
    exact check_args_method_mismatch env args aTs method.argument_types _ hlen1 har hok hex

/-- C1 counterexample to the claim as stated: the call r.m(x.g()) meets
every hypothesis of the claim — the receiver type Obj is non-primitive,
declares m, and one argument is passed for one parameter — and the
argument static type boolean fails all three acceptance conditions
against the parameter type int, yet check_types does not fail with the
ArgumentTypeMismatch message naming the tuples: the argument subtree
x.g() is validated first and its own arity failure surfaces instead. -/
theorem C1_counterexample :
    static_type envA (.var "r" (.cls "Obj")) = some (.cls "Obj")
    ∧ JType.cls "Obj" ∉ primitives
    ∧ method_named envA (.cls "Obj") "m" = some ⟨"m", JType.int, [JType.int]⟩
    ∧ static_types_of envA [argBadArity] = some [JType.boolean]
    ∧ ¬ accept_m envA JType.boolean JType.int
    ∧ check_types envA exprC1 =
        Outcome.typeError "Wrong number of arguments for C.g(): expected 1, got 0"
    ∧ check_types envA exprC1 ≠
        Outcome.typeError
          (method_mismatch_msg (.cls "Obj") ⟨"m", JType.int, [JType.int]⟩
            [JType.boolean]) :=
  ⟨rfl, by decide, by decide, by decide, by decide, by decide, by decide⟩

/-- C1 witness: for the call w.takeInt(null) every hypothesis of the
amended claim holds and the single position is accepted through the
null condition against the primitive parameter int, so validation
succeeds; conversely w.takeB(s) with a String argument fails with the
mismatch message naming the tuples. -/
theorem C1_witness :
    check_types envA (.methodCall (.var "w" (.cls "W")) "takeInt" [.nullLiteral]) =
      Outcome.ok
    ∧ check_types envA
        (.methodCall (.var "w" (.cls "W")) "takeB" [.var "s" (.cls "String")]) =
      Outcome.typeError "W.takeB() expects arguments of type (B3), but got (String)" :=
  ⟨(C1_method_argument_rule envA (.var "w" (.cls "W")) "takeInt" [.nullLiteral]
      (.cls "W") ⟨"takeInt", JType.int, [JType.int]⟩ [JType.null]
      rfl (by decide) (by decide) (by decide) rfl (by decide)).1.mpr (by decide),
   (C1_method_argument_rule envA (.var "w" (.cls "W")) "takeB"
      [.var "s" (.cls "String")]
      (.cls "W") ⟨"takeB", JType.int, [.cls "B3"]⟩ [.cls "String"]
      rfl (by decide) (by decide) (by decide) rfl (by decide)).2
      ⟨(.cls "String", .cls "B3"), by decide, by decide⟩⟩

/-- C2: every well-typed call succeeds: a method call whose receiver
static type is non-primitive and declares the named method, and a
constructor call of a non-primitive non-null type, with matching
argument count, every argument type equal to the declared parameter
type, a direct subtype of it, or null where the respective rule permits
it, and all child subtrees valid, validate successfully. -/
theorem C2_well_typed_calls_succeed (env : TypeEnv) :
    (∀ (recv : Expression) (mname : String) (args : List Expression)
      (R : JType) (method : MethodSig) (aTs : List JType),
      static_type env recv = some R → R ∉ primitives →
      method_named env R mname = some method →
      args.length = method.argument_types.length →
      static_types_of env args = some aTs →
      check_types env recv = Outcome.ok →
      (∀ e ∈ args, check_types env e = Outcome.ok) →
      (∀ q ∈ aTs.zip method.argument_types, accept_m env q.1 q.2) →
      check_types env (.methodCall recv mname args) = Outcome.ok)
    ∧ (∀ (t : JType) (args : List Expression) (aTs : List JType),
      t ∉ primitives → t ≠ JType.null →
      args.length = (env.info t).constructor.argument_types.length →
      static_types_of env args = some aTs →
      (∀ e ∈ args, check_types env e = Outcome.ok) →
      (∀ q ∈ aTs.zip (env.info t).constructor.argument_types, accept_c env q.1 q.2) →
      check_types env (.constructorCall t args) = Outcome.ok) := by
  constructor
  · intro recv mname args R method aTs hR hp hm har hst _ hok hacc
    rw [methodCall_loop env recv mname args R method aTs hR hp hm har hst]
    exact check_args_method_all_ok env args aTs method.argument_types _ hok hacc
  · intro t args aTs hp hn har hst hok hacc
    rw [ctorCall_loop env t args aTs hp hn har hst]
    exact check_args_ctor_all_ok env args aTs (env.info t).constructor.argument_types _ hok hacc

/-- C2 witness: the spec scenario s.length() for s of type String
succeeds, and new String(1) with the int literal 1 for the one int
parameter succeeds. -/
theorem C2_witness :
    check_types envA (.methodCall (.var "s" (.cls "String")) "length" []) =
      Outcome.ok
    ∧ check_types envA (.constructorCall (.cls "String") [.literal "1" JType.int]) =
      Outcome.ok :=
  ⟨(C2_well_typed_calls_succeed envA).1 (.var "s" (.cls "String")) "length" []
      (.cls "String") ⟨"length", JType.int, []⟩ []
      rfl (by decide) (by decide) (by decide) rfl rfl (by decide) (by decide),
   (C2_well_typed_calls_succeed envA).2 (.cls "String") [.literal "1" JType.int]
      [JType.int] (by decide) (by decide) (by decide) rfl (by decide) (by decide)⟩

lemma envA_wf : WellFormedEnv envA := by
  intro t p hp hmem
  have htable : ∀ q ∈ envTable, ∀ x ∈ (q.2).direct_supertypes, x ∉ primitives := by
    decide
  rcases hfind : envTable.find? (fun q => q.1 == t) with _ | q
  · simp [envA, hfind, infoEmpty] at hmem
  · simp only [envA, hfind, Option.map_some, Option.getD_some] at hmem
    exact htable q (List.mem_of_find?_eq_some hfind) p hmem hp

/-- C5: the null-assignability asymmetry between the two call forms, for
every hierarchy satisfying the spec invariant that primitives are never
supertypes: a method call all of whose arguments are null-typed
validates successfully whatever the declared parameter types are, while
a constructor call with the same null-typed arguments fails with the
ArgumentTypeMismatch cause and its tuple message as soon as some
parameter position expects a primitive type. -/
theorem C5_null_argument_asymmetry (env : TypeEnv) (hwf : WellFormedEnv env)
    (recv : Expression) (mname : String) (args : List Expression)
    (R : JType) (method : MethodSig) (aTs : List JType) (t : JType)
    (hR : static_type env recv = some R) (hp : R ∉ primitives)
    (hm : method_named env R mname = some method)
    (har : args.length = method.argument_types.length)
    (hst : static_types_of env args = some aTs)
    (hok : ∀ e ∈ args, check_types env e = Outcome.ok)
    (hnull : ∀ a ∈ aTs, a = JType.null)
    (ht : t ∉ primitives) (htn : t ≠ JType.null)
    (harc : args.length = (env.info t).constructor.argument_types.length)
    (hprim : ∃ q ∈ aTs.zip (env.info t).constructor.argument_types,
      q.2 ∈ primitives) :
    check_types env (.methodCall recv mname args) = Outcome.ok
    ∧ check_types env (.constructorCall t args) =
        Outcome.typeError
          (ctor_mismatch_msg t (env.info t).constructor.argument_types aTs) := by
  constructor
  · rw [methodCall_loop env recv mname args R method aTs hR hp hm har hst]
    apply check_args_method_all_ok env args aTs method.argument_types _ hok
    intro q hq
    obtain ⟨a, b⟩ := q
    exact Or.inr (Or.inr (hnull a (List.of_mem_zip hq).1))
  · rw [ctorCall_loop env t args aTs ht htn harc hst]
    apply check_args_ctor_mismatch env args aTs (env.info t).constructor.argument_types _
      (static_types_of_length env args aTs hst) harc hok
    obtain ⟨⟨a, b⟩, hq, hbp⟩ := hprim
    dsimp only at hbp
    have ha : a = JType.null := hnull a (List.of_mem_zip hq).1
    refine ⟨(a, b), hq, ?_⟩
    intro hacc
    dsimp only at hacc
    rcases hacc with h | h | h
    · rw [← h, ha] at hbp
      exact absurd hbp (by decide)
    · exact hwf a b hbp h
    · exact h.2 hbp

/-- C5 witness: the spec scenarios — w.takeInt(null), where takeInt
expects one int, succeeds, while new String(null), where the String
constructor expects one int, fails with the mismatch message. -/
theorem C5_witness :
    check_types envA (.methodCall (.var "w" (.cls "W")) "takeInt" [.nullLiteral]) =
      Outcome.ok
    ∧ check_types envA (.constructorCall (.cls "String") [.nullLiteral]) =
        Outcome.typeError
          "String constructor expects arguments of type (int), but got (null)" := by
  have h := C5_null_argument_asymmetry envA envA_wf (.var "w" (.cls "W")) "takeInt"
    [.nullLiteral] (.cls "W") ⟨"takeInt", JType.int, [JType.int]⟩ [JType.null]
    (.cls "String")
    rfl (by decide) (by decide) (by decide) rfl (by decide) (by decide)
    (by decide) (by decide) (by decide)
    ⟨(JType.null, JType.int), by decide, by decide⟩
  exact ⟨h.1, h.2.trans (by decide)⟩

/-- C6: argument widening is single-level in both call forms: when B is
a direct supertype of A and Cc a direct supertype of B, but Cc is
neither A itself nor a direct supertype of A, a non-null argument of
static type A is accepted where B is declared — in a method call and in
a constructor call — and rejected with the ArgumentTypeMismatch cause
and its tuple message where Cc is declared, although A is transitively
a subtype of Cc. -/
theorem C6_single_level_widening (env : TypeEnv)
    (A B Cc : JType) (recv : Expression) (R : JType)
    (mB mC : String) (sigB sigC : MethodSig) (tB tC : JType) (e : Expression)
    (hAB : B ∈ (env.info A).direct_supertypes)
    (_hBC : Cc ∈ (env.info B).direct_supertypes)
    (hAC : Cc ∉ (env.info A).direct_supertypes)
    (hACne : A ≠ Cc) (hAnull : A ≠ JType.null)
    (hR : static_type env recv = some R) (hRp : R ∉ primitives)
    (hmB : method_named env R mB = some sigB) (hsigB : sigB.argument_types = [B])
    (hmC : method_named env R mC = some sigC) (hsigC : sigC.argument_types = [Cc])
    (he : static_type env e = some A) (heok : check_types env e = Outcome.ok)
    (htB : tB ∉ primitives) (htBn : tB ≠ JType.null)
    (hcB : (env.info tB).constructor.argument_types = [B])
    (htC : tC ∉ primitives) (htCn : tC ≠ JType.null)
    (hcC : (env.info tC).constructor.argument_types = [Cc]) :
    check_types env (.methodCall recv mB [e]) = Outcome.ok
    ∧ check_types env (.methodCall recv mC [e]) =
        Outcome.typeError (method_mismatch_msg R sigC [A])
    ∧ check_types env (.constructorCall tB [e]) = Outcome.ok
    ∧ check_types env (.constructorCall tC [e]) =
        Outcome.typeError (ctor_mismatch_msg tC [Cc] [A]) := by
  have hst : static_types_of env [e] = some [A] := by
    simp [static_types_of, he]
  have hok : ∀ x ∈ [e], check_types env x = Outcome.ok := by
    intro x hx
    simp at hx
    subst hx
    exact heok
  have hnotM : ¬ accept_m env A Cc := by
    intro h
    rcases h with h | h | h
    exacts [hACne h, hAC h, hAnull h]
  have hnotC : ¬ accept_c env A Cc := by
    intro h
    rcases h with h | h | h
    exacts [hACne h, hAC h, hAnull h.1]
  refine ⟨?_, ?_, ?_, ?_⟩
  · rw [methodCall_loop env recv mB [e] R sigB [A] hR hRp hmB (by simp [hsigB]) hst]
    exact check_args_method_all_ok env [e] [A] sigB.argument_types _ hok
      (by rw [hsigB]
          intro q hq
          simp at hq
          subst hq
          exact Or.inr (Or.inl hAB))
  · rw [methodCall_loop env recv mC [e] R sigC [A] hR hRp hmC (by simp [hsigC]) hst]
    exact check_args_method_mismatch env [e] [A] sigC.argument_types _
      (by simp) (by simp [hsigC]) hok
      ⟨(A, Cc), by rw [hsigC]; simp, hnotM⟩
  · rw [ctorCall_loop env tB [e] [A] htB htBn (by simp [hcB]) hst, hcB]
    exact check_args_ctor_all_ok env [e] [A] [B] _ hok
      (by intro q hq
          simp at hq
          subst hq
          exact Or.inr (Or.inl hAB))
  · rw [ctorCall_loop env tC [e] [A] htC htCn (by simp [hcC]) hst, hcC]
    exact check_args_ctor_mismatch env [e] [A] [Cc] _
      (by simp) (by simp) hok ⟨(A, Cc), by simp, hnotC⟩

/-- C6 witness: in the hierarchy where B3 is the direct supertype of A3
and C3 the direct supertype of B3, the calls w.takeB(a) and new
CtorB(a) with a of type A3 succeed, while w.takeC(a) and new CtorC(a)
fail with the mismatch messages, although A3 is transitively a C3. -/
theorem C6_witness :
    check_types envA
        (.methodCall (.var "w" (.cls "W")) "takeB" [.var "a" (.cls "A3")]) =
      Outcome.ok
    ∧ check_types envA
        (.methodCall (.var "w" (.cls "W")) "takeC" [.var "a" (.cls "A3")]) =
      Outcome.typeError "W.takeC() expects arguments of type (C3), but got (A3)"
    ∧ check_types envA (.constructorCall (.cls "CtorB") [.var "a" (.cls "A3")]) =
      Outcome.ok
    ∧ check_types envA (.constructorCall (.cls "CtorC") [.var "a" (.cls "A3")]) =
      Outcome.typeError
        "CtorC constructor expects arguments of type (C3), but got (A3)" := by
  have h := C6_single_level_widening envA (.cls "A3") (.cls "B3") (.cls "C3")
    (.var "w" (.cls "W")) (.cls "W") "takeB" "takeC"
    ⟨"takeB", JType.int, [.cls "B3"]⟩ ⟨"takeC", JType.int, [.cls "C3"]⟩
    (.cls "CtorB") (.cls "CtorC") (.var "a" (.cls "A3"))
    (by decide) (by decide) (by decide) (by decide) (by decide)
    rfl (by decide) (by decide) rfl (by decide) rfl rfl rfl
    (by decide) (by decide) (by decide) (by decide) (by decide) (by decide)
  exact ⟨h.1, h.2.1.trans (by decide), h.2.2.1, h.2.2.2.trans (by decide)⟩

/-- C9 as amended: check_types raises every cause as the same single
error carrying only a human-readable message, with no inspectable kind;
the five causes of the taxonomy are not recoverable from the error
value — here an unknown-method failure and an arity failure produce
identical error outcomes, while the spec-side kinded checker separates
them. -/
theorem C9_single_error_kind :
    check_types envA exprUnknown =
      Outcome.typeError
        "Wrong number of arguments for Q.c has no method named d(): expected 1, got 2"
    ∧ check_types envA exprArity =
      Outcome.typeError
        "Wrong number of arguments for Q.c has no method named d(): expected 1, got 2"
    ∧ check_types_k envA exprUnknown ≠ check_types_k envA exprArity :=
  ⟨by decide, by decide, by decide⟩

/-- C9 counterexample to the claim as stated: the error outcomes of
check_types for the call x.m with an unknown method (the
UnknownMethod cause) and for the call y.f with too many arguments (the
ArityMismatch cause) are equal — the raised JavaTypeError carries only
its message string, and the two causes here even produce the same
message — so the error outcome carries no inspectable kind
distinguishing the five causes; the kinded checker the spec asks for
distinguishes them. -/
theorem C9_counterexample :
    check_types envA exprUnknown = check_types envA exprArity
    ∧ check_types_k envA exprUnknown =
        OutcomeK.typeError TypeErrorKind.UnknownMethod
          "Wrong number of arguments for Q.c has no method named d(): expected 1, got 2"
    ∧ check_types_k envA exprArity =
        OutcomeK.typeError TypeErrorKind.ArityMismatch
          "Wrong number of arguments for Q.c has no method named d(): expected 1, got 2" :=
  ⟨by decide, by decide, by decide⟩

end JavaTypeChecker
